import Mathlib

/-!
Shallow embedding of the real-time voice session manager and roadmap
generation logic of `src/App.tsx` (EduPath AI single-page application).

Modelling conventions:
* React `useState` cells become fields of `AppState`; each event handler of
  the source becomes a pure state-transition function.
* Floating point audio samples are embedded as exact rationals; the
  JavaScript expression `Math.max(-1, Math.min(1, x)) * 0x7FFF` followed by
  storage into an `Int16Array` (ECMAScript ToInt16: truncation toward zero,
  then wrap modulo 2^16 into the signed range) is translated literally.
* The asynchronous callbacks of `ai.live.connect` (onopen / onmessage /
  onclose / onerror), the resolution of the `connect` promise, and the user
  interface clicks are modelled as an event alphabet `Ev`; `stepEv` is the
  transition function obtained by translating each handler body.
* Ghost counters (`connects`, `pipelines`, `genRequests`) instrument the
  calls to `ai.live.connect`, the creation of a capture pipeline inside the
  `onopen` callback, and the calls to `ai.models.generateContent`; they do
  not influence any observable field.
-/

/-- Wizard steps, from `type Step` (line 51 of the source). -/
inductive Step where
  | welcome
  | login
  | dashboard
  | basicInfo
  | interests
  | discovery
  | generating
  | results
deriving DecidableEq, Repr

/-- The `roadmap` field of `CareerOption` (lines 70-74): the fixed
three-milestone roadmap. -/
structure Roadmap where
  day30 : String
  day60 : String
  day90 : String
deriving DecidableEq, Repr

/-- Entries of the `learningResources` field of `CareerOption` (line 75). -/
structure LearningResource where
  name : String
  url : String
  description : String
deriving DecidableEq, Repr

/-- The TypeScript interface `CareerOption` (lines 62-78). Optional fields of the
TypeScript interface become `Option`. -/
structure CareerOption where
  title : String
  matchScore : ℚ
  whyFits : String
  technicalSkills : Option (List String)
  examSubjects : Option (List String)
  physicalEligibility : Option String
  softSkills : List String
  roadmap : Roadmap
  learningResources : List LearningResource
  jobReadinessTime : String
  competitionLevel : Option String
deriving DecidableEq, Repr

/-- The `required` list of the roadmap sub-schema in the
`generateCareerRoadmap` response schema (line 181). -/
def roadmapRequiredFields : List String := ["day30", "day60", "day90"]

/-- The `required` list of the top-level item schema (line 197). -/
def careerOptionRequiredFields : List String :=
  ["title", "matchScore", "whyFits", "softSkills", "roadmap",
   "learningResources", "jobReadinessTime"]

/-- The `required` list of the learning-resource sub-schema (line 192). -/
def learningResourceRequiredFields : List String :=
  ["name", "url", "description"]

/- ### PCM conversion (processor.onaudioprocess, lines 283-291) -/

/-- The clamp `Math.max(-1, Math.min(1, inputData[i]))` applied to each
float sample before scaling (line 287). -/
def clampSample (x : ℚ) : ℚ := max (-1) (min 1 x)

/-- Truncation toward zero, the integer conversion ECMAScript applies to a
number stored into an `Int16Array`: the truncating division of the
numerator by the denominator. -/
def ratTrunc (q : ℚ) : ℤ := Int.tdiv q.num q.den

/-- ECMAScript ToInt16: wrap an integer modulo 2^16 into the signed 16-bit
range, as performed by the `Int16Array` element store (line 287). -/
def toInt16 (n : ℤ) : ℤ :=
  if n % 65536 < 32768 then n % 65536 else n % 65536 - 65536

/-- The sample conversion `pcmData[i] = Math.max(-1, Math.min(1, inputData[i])) * 0x7FFF`
(line 287): clamp, scale by 32767, then the Int16Array store conversion. -/
def pcmOfSample (x : ℚ) : ℤ := toInt16 (ratTrunc (clampSample x * 32767))

/-- Little-endian byte serialization of one 16-bit sample, as exposed by
`new Uint8Array(pcmData.buffer)` (line 289). -/
def int16Bytes (v : ℤ) : List ℕ :=
  [(v % 65536).toNat % 256, (v % 65536).toNat / 256]

/-- The base64 alphabet used by `btoa`. -/
def base64Chars : List Char :=
  ("ABCDEFGHIJKLMNOPQRSTUVWXYZabcdefghijklmnopqrstuvwxyz0123456789+/").data

/-- Character of the base64 alphabet at a sextet value. -/
def b64Char (n : ℕ) : Char := base64Chars.getD n 'A'

/-- Base64 encoding of a byte list, as `btoa` does (line 289). -/
def base64Encode : List ℕ → List Char
  | [] => []
  | [b1] => [b64Char (b1 / 4), b64Char (b1 % 4 * 16), '=', '=']
  | [b1, b2] =>
      [b64Char (b1 / 4), b64Char (b1 % 4 * 16 + b2 / 16),
       b64Char (b2 % 16 * 4), '=']
  | b1 :: b2 :: b3 :: rest =>
      b64Char (b1 / 4) :: b64Char (b1 % 4 * 16 + b2 / 16) ::
      b64Char (b2 % 16 * 4 + b3 / 64) :: b64Char (b3 % 64) ::
      base64Encode rest

/-- The argument of `liveSession.sendRealtimeInput` (line 290). -/
structure Payload where
  data : String
  mimeType : String
deriving DecidableEq, Repr

/-- One run of the `processor.onaudioprocess` callback body (lines
283-290): convert the float block to 16-bit PCM, serialize little-endian,
base64-encode, and build the realtime-input payload. -/
def processAudioTick (inputData : List ℚ) : Payload :=
  { data := String.mk
      (base64Encode (((inputData.map pcmOfSample).map int16Bytes).flatten)),
    mimeType := "audio/pcm;rate=16000" }

/-- The sequence of `sendRealtimeInput` calls produced by a run of capture
ticks: each `onaudioprocess` event appends exactly one send, synchronously,
in event order (line 290). -/
def runTicks (sent : List Payload) (ticks : List (List ℚ)) : List Payload :=
  ticks.foldl (fun log block => log ++ [processAudioTick block]) sent

/- ### Transcript handling (onmessage, lines 294-299) -/

/-- The `onmessage` callback body (lines 294-298): a message whose first
content part carries text appends `"\n" + text` to the transcript string;
any other message leaves it unchanged. The `Option String` is the text of
`message.serverContent?.modelTurn?.parts?.[0]?.text`. -/
def handleMessage (tr : String) (m : Option String) : String :=
  match m with
  | some t => tr ++ "\n" ++ t
  | none => tr

/-- Folding a list of inbound messages through the `onmessage` handler. -/
def transcriptFold (init : String) (ms : List (Option String)) : String :=
  ms.foldl handleMessage init

/-- The banner the `onopen` callback writes into the transcript (line 275). -/
def connectedBanner : String := "Connected! Start speaking..."

/-- Transcript after a successful open followed by a list of text deltas. -/
def sessionTranscript (ds : List String) : String :=
  transcriptFold connectedBanner (ds.map some)

/- ### Application state and event step -/

/-- The React state cells of `App` that the voice session and roadmap
generation touch (lines 252-265), plus ghost instrumentation counters. -/
structure AppState where
  step : Step
  isLiveActive : Bool
  hasSession : Bool
  liveTranscript : String
  micOpen : Bool
  pendingConnects : ℕ
  results : List CareerOption
  isGenerating : Bool
  connects : ℕ
  pipelines : ℕ
  genRequests : ℕ
deriving DecidableEq, Repr

/-- The initial `useState` values (lines 252-265), on the dashboard step. -/
def idle0 : AppState :=
  { step := Step.dashboard
    isLiveActive := false
    hasSession := false
    liveTranscript := ""
    micOpen := false
    pendingConnects := 0
    results := []
    isGenerating := false
    connects := 0
    pipelines := 0
    genRequests := 0 }

/-- Whether the header mic toggle button is rendered: the JSX guard
`step !== 'welcome' && step !== 'generating'` (line 399). -/
def micButtonShown (st : Step) : Bool :=
  st != Step.welcome && st != Step.generating

/-- Translation of `stopLiveSession` (lines 319-322): `session?.close()` (a transport
close, a no-op when no session handle is stored) followed by
`setIsLiveActive(false)`. No other state is touched: in particular the
media stream, audio context and processor are not stopped. -/
def stopLive (s : AppState) : AppState :=
  { s with isLiveActive := false }

/-- The synchronous prefix of `startLiveSession` (line 270): invoke
`ai.live.connect`, leaving one more connect promise pending. The ghost
counter `connects` records the call. -/
def startInvoke (s : AppState) : AppState :=
  { s with pendingConnects := s.pendingConnects + 1,
           connects := s.connects + 1 }

/-- Events driving the session logic: user clicks, promise resolutions and
inbound transport callbacks. -/
inductive Ev where
  /-- Click on the header mic toggle button (line 402). -/
  | toggle
  /-- Click on the X button of the live-assistant panel (line 870). -/
  | panelClose
  /-- A pending `ai.live.connect` promise resolves: the `onopen` callback
  runs (lines 273-292, with `getUserMedia` resolving and the capture
  pipeline being built), then `setSession` stores the handle (line 313). -/
  | connectOk
  /-- A pending `ai.live.connect` promise rejects: the `catch` block
  (lines 314-316) only logs. -/
  | connectErr
  /-- An inbound message, carrying an optional first-part text delta. -/
  | message (t : Option String)
  /-- The `onclose` callback (lines 300-303). -/
  | srvClose
  /-- The `onerror` callback (lines 304-307). -/
  | srvError

/-- The transition function: each event's handler body translated from the
source. -/
def stepEv (s : AppState) : Ev → AppState
  | Ev.toggle =>
      if micButtonShown s.step then
        if s.isLiveActive then stopLive s else startInvoke s
      else s
  | Ev.panelClose =>
      if s.isLiveActive then stopLive s else s
  | Ev.connectOk =>
      { s with pendingConnects := s.pendingConnects - 1,
               isLiveActive := true,
               liveTranscript := connectedBanner,
               micOpen := true,
               hasSession := true,
               pipelines := s.pipelines + 1 }
  | Ev.connectErr =>
      { s with pendingConnects := s.pendingConnects - 1 }
  | Ev.message t =>
      { s with liveTranscript := handleMessage s.liveTranscript t }
  | Ev.srvClose =>
      { s with isLiveActive := false, hasSession := false }
  | Ev.srvError =>
      { s with isLiveActive := false }

/-- Folding a list of events through the transition function. -/
def runEvents (s : AppState) (es : List Ev) : AppState :=
  es.foldl stepEv s

/- ### Roadmap generation (generateCareerRoadmap and handleGenerate) -/

/-- Translation of `handleGenerate` (lines 350-363), with the awaited outcome of
`generateCareerRoadmap` made explicit: on success the parsed records are
stored and the step becomes `results`; on failure the error is logged, the
step returns to `interests` and `results` is left untouched; in both cases
`isGenerating` is cleared and exactly one generation request was issued
(ghost counter `genRequests`). -/
def handleGenerate (s : AppState) (outcome : Except String (List CareerOption)) :
    AppState :=
  match outcome with
  | Except.ok data =>
      { s with results := data, step := Step.results,
               isGenerating := false, genRequests := s.genRequests + 1 }
  | Except.error _ =>
      { s with step := Step.interests,
               isGenerating := false, genRequests := s.genRequests + 1 }

/- ### Newline splitting (used to compare the single transcript string
against the entry-list reading of the specification) -/

/-- Split a character list at every newline character. -/
def splitNlChars : List Char → List (List Char)
  | [] => [[]]
  | c :: cs =>
      if c = '\n' then [] :: splitNlChars cs
      else
        match splitNlChars cs with
        | [] => [[c]]
        | g :: gs => (c :: g) :: gs

/-- Split a string at every newline. -/
def splitNl (s : String) : List String := (splitNlChars s.data).map String.mk

/-- Concatenation of a list of deltas, each preceded by a newline — the
shape `onmessage` gives the transcript after the banner. -/
def deltasText : List String → String
  | [] => ""
  | t :: ts => "\n" ++ t ++ deltasText ts

/-! ## Helper lemmas -/

/-- Truncation toward zero agrees with floor on nonnegative rationals and
with ceiling on negative ones. -/
theorem ratTrunc_eq_floor_ceil (q : ℚ) :
    ratTrunc q = if 0 ≤ q then ⌊q⌋ else ⌈q⌉ := by
  unfold ratTrunc
  by_cases h : 0 ≤ q
  · rw [if_pos h, Rat.floor_def]
    exact Int.tdiv_eq_ediv (Rat.num_nonneg.mpr h) (Int.natCast_nonneg _)
  · rw [if_neg h]
    have hq : q.num < 0 := Rat.num_neg.mpr (lt_of_not_ge h)
    have hceil : ⌈q⌉ = -⌊-q⌋ := by
      rw [Int.floor_neg, neg_neg]
    have hfloor : ⌊-q⌋ = Int.tdiv (-q.num) q.den := by
      rw [Rat.floor_def, Rat.num_neg_eq_neg_num, Rat.den_neg_eq_den]
      exact (Int.tdiv_eq_ediv (by omega) (Int.natCast_nonneg _)).symm
    rw [hceil, hfloor, Int.neg_tdiv, neg_neg]

/-- Bounds for truncation toward zero. -/
theorem ratTrunc_bounds {q : ℚ} (h1 : -32767 ≤ q) (h2 : q ≤ 32767) :
    -32767 ≤ ratTrunc q ∧ ratTrunc q ≤ 32767 := by
  rw [ratTrunc_eq_floor_ceil]
  by_cases h : 0 ≤ q
  · rw [if_pos h]
    constructor
    · exact le_trans (by norm_num) (Int.floor_nonneg.mpr h)
    · have hf : (⌊q⌋ : ℚ) ≤ 32767 := le_trans (Int.floor_le q) h2
      exact_mod_cast hf
  · rw [if_neg h]
    constructor
    · have hc : (-32767 : ℚ) ≤ ⌈q⌉ := le_trans h1 (Int.le_ceil q)
      exact_mod_cast hc
    · refine le_trans ?_ (by norm_num : (0:ℤ) ≤ 32767)
      exact Int.ceil_le.mpr (by exact_mod_cast le_of_lt (lt_of_not_ge h))

/-- The clamp confines every sample to the unit interval. -/
theorem clampSample_bounds (x : ℚ) : -1 ≤ clampSample x ∧ clampSample x ≤ 1 :=
  ⟨le_max_left _ _, max_le (by norm_num) (min_le_left _ _)⟩

/-- The ToInt16 wrap is the identity on the signed 16-bit range. -/
theorem toInt16_eq_self {n : ℤ} (h1 : -32768 ≤ n) (h2 : n ≤ 32767) :
    toInt16 n = n := by
  unfold toInt16
  split <;> omega

/-- The bounds of the full PCM conversion of one sample. -/
theorem pcmOfSample_bounds (x : ℚ) :
    -32768 ≤ pcmOfSample x ∧ pcmOfSample x ≤ 32767 := by
  have hc := clampSample_bounds x
  have h1 : (-32767 : ℚ) ≤ clampSample x * 32767 := by nlinarith [hc.1, hc.2]
  have h2 : clampSample x * 32767 ≤ 32767 := by nlinarith [hc.1, hc.2]
  have ht := ratTrunc_bounds h1 h2
  unfold pcmOfSample
  rw [toInt16_eq_self (by omega) (by omega)]
  omega

/-- Unfolding the capture fold into a map. -/
theorem runTicks_eq (sent : List Payload) (ticks : List (List ℚ)) :
    runTicks sent ticks = sent ++ ticks.map processAudioTick := by
  induction ticks generalizing sent with
  | nil => simp [runTicks]
  | cons b bs ih =>
      have h1 : runTicks sent (b :: bs) =
          runTicks (sent ++ [processAudioTick b]) bs := rfl
      rw [h1, ih]
      simp

/-- Unfolding the transcript fold into the banner plus the newline-prefixed
concatenation of the text deltas, messages without text being skipped. -/
theorem transcriptFold_eq (init : String) (ms : List (Option String)) :
    transcriptFold init ms = init ++ deltasText (ms.filterMap id) := by
  induction ms generalizing init with
  | nil => simp [transcriptFold, deltasText]
  | cons m ms ih =>
      cases m with
      | none =>
          have h1 : transcriptFold init (none :: ms) = transcriptFold init ms := rfl
          rw [h1, ih]
          simp
      | some t =>
          have h1 : transcriptFold init (some t :: ms) =
              transcriptFold (init ++ "\n" ++ t) ms := rfl
          rw [h1, ih]
          simp [deltasText, String.append_assoc]

/-- The newline splitter never returns an empty group list. -/
theorem splitNlChars_ne_nil (cs : List Char) : splitNlChars cs ≠ [] := by
  induction cs with
  | nil => simp [splitNlChars]
  | cons c cs ih =>
      rw [splitNlChars]
      split
      · simp
      · split
        · simp
        · simp

/-- Splitting a newline-free character list gives one group. -/
theorem splitNlChars_no_nl {cs : List Char} (h : '\n' ∉ cs) :
    splitNlChars cs = [cs] := by
  induction cs with
  | nil => rfl
  | cons c cs ih =>
      have hc : ¬ c = '\n' := fun e => h (by simp [e])
      have hcs : '\n' ∉ cs := fun e => h (by simp [e])
      rw [splitNlChars, if_neg hc, ih hcs]

/-- Splitting across the first newline. -/
theorem splitNlChars_append_nl {xs : List Char} (h : '\n' ∉ xs) (ys : List Char) :
    splitNlChars (xs ++ '\n' :: ys) = xs :: splitNlChars ys := by
  induction xs with
  | nil => simp [splitNlChars]
  | cons c cs ih =>
      have hc : ¬ c = '\n' := fun e => h (by simp [e])
      have hcs : '\n' ∉ cs := fun e => h (by simp [e])
      rw [List.cons_append, splitNlChars, if_neg hc, ih hcs]

/-- Splitting a newline-free prefix followed by newline-prefixed deltas
recovers the prefix and the deltas. -/
theorem splitNlChars_deltas (p : List Char) (hp : '\n' ∉ p) (ds : List String)
    (h : ∀ d ∈ ds, '\n' ∉ d.data) :
    splitNlChars (p ++ (deltasText ds).data) = p :: ds.map String.data := by
  induction ds generalizing p with
  | nil =>
      have h0 : (deltasText []).data = [] := rfl
      rw [h0, List.append_nil, splitNlChars_no_nl hp]
      rfl
  | cons t ts ih =>
      have h1 : (deltasText (t :: ts)).data =
          '\n' :: (t.data ++ (deltasText ts).data) := by
        show ("\n" ++ t ++ deltasText ts).data = _
        rw [String.data_append, String.data_append]
        rfl
      rw [h1, splitNlChars_append_nl hp,
        ih t.data (h t (by simp)) (fun d hd => h d (by simp [hd]))]
      rfl

/-- Packing the unpacked characters of a string gives the string back. -/
theorem string_mk_data (s : String) : String.mk s.data = s := rfl

/-- String-level form of the delta-recovery lemma. -/
theorem splitNl_banner_deltas (ds : List String)
    (h : ∀ d ∈ ds, '\n' ∉ d.data) :
    splitNl (connectedBanner ++ deltasText ds) = connectedBanner :: ds := by
  unfold splitNl
  rw [String.data_append,
    splitNlChars_deltas connectedBanner.data (by decide) ds h]
  rw [List.map_cons, string_mk_data, List.map_map]
  have hid : (String.mk ∘ String.data) = id := funext string_mk_data
  rw [hid, List.map_id]

/-- Running a list of message events folds the transcript handler over the
transcript cell and changes nothing else relevant. -/
theorem runEvents_messages (s : AppState) (ms : List (Option String)) :
    (runEvents s (ms.map Ev.message)).liveTranscript =
      transcriptFold s.liveTranscript ms := by
  induction ms generalizing s with
  | nil => rfl
  | cons m ms ih =>
      have h1 : runEvents s ((m :: ms).map Ev.message) =
          runEvents (stepEv s (Ev.message m)) (ms.map Ev.message) := rfl
      have h2 : transcriptFold s.liveTranscript (m :: ms) =
          transcriptFold (handleMessage s.liveTranscript m) ms := rfl
      rw [h1, h2, ih]
      rfl

/-- A rational numeral scaled by one is itself; truncation of the integer
numeral 32767. -/
theorem ratTrunc_ofNat : ratTrunc (32767 : ℚ) = 32767 := by
  unfold ratTrunc
  norm_num

/-- Truncation of the negated numeral. -/
theorem ratTrunc_neg_ofNat : ratTrunc (-(32767 : ℚ)) = -32767 := by
  unfold ratTrunc
  rw [Rat.num_neg_eq_neg_num, Rat.den_neg_eq_den]
  norm_num

/-- Samples at or above the positive boundary saturate to 32767. -/
theorem pcmOfSample_high {x : ℚ} (h : 1 ≤ x) : pcmOfSample x = 32767 := by
  have hc : clampSample x = 1 := by
    unfold clampSample
    rw [min_eq_left h, max_eq_right (by norm_num : (-1 : ℚ) ≤ 1)]
  rw [pcmOfSample, hc, one_mul, ratTrunc_ofNat]
  decide

/-- Samples at or below the negative boundary saturate to -32767. -/
theorem pcmOfSample_low {x : ℚ} (h : x ≤ -1) : pcmOfSample x = -32767 := by
  have hc : clampSample x = -1 := by
    unfold clampSample
    rw [min_eq_right (le_trans h (by norm_num : (-1 : ℚ) ≤ 1)), max_eq_left h]
  rw [pcmOfSample, hc, neg_one_mul, ratTrunc_neg_ofNat]
  decide

/-! ## Claims -/

/-- C1: the claim states that on every exit from Active (explicit stop,
inbound close, inbound error) audio capture is stopped and the microphone
stream is released. The code violates it: no event ever clears the capture
pipeline — `stopLiveSession` only closes the transport and clears
`isLiveActive`, and the `onclose`/`onerror` callbacks never touch the
media stream or audio context — so once the microphone is open it stays
open on every path, including all three exits from Active. -/
theorem c1_mic_never_released :
    (∀ (s : AppState) (e : Ev),
      (stepEv s e).micOpen = s.micOpen ∨ e = Ev.connectOk) ∧
    ((runEvents idle0 [Ev.toggle, Ev.connectOk]).micOpen = true ∧
     (runEvents idle0 [Ev.toggle, Ev.connectOk]).isLiveActive = true ∧
     (runEvents idle0 [Ev.toggle, Ev.connectOk, Ev.srvClose]).micOpen = true ∧
     (runEvents idle0 [Ev.toggle, Ev.connectOk, Ev.srvClose]).isLiveActive = false ∧
     (runEvents idle0 [Ev.toggle, Ev.connectOk, Ev.srvError]).micOpen = true ∧
     (runEvents idle0 [Ev.toggle, Ev.connectOk, Ev.srvError]).isLiveActive = false ∧
     (runEvents idle0 [Ev.toggle, Ev.connectOk, Ev.toggle]).micOpen = true ∧
     (runEvents idle0 [Ev.toggle, Ev.connectOk, Ev.toggle]).isLiveActive = false) := by
  constructor
  · intro s e
    cases e with
    | toggle =>
        left
        simp only [stepEv]
        by_cases hb : micButtonShown s.step
        · by_cases ha : s.isLiveActive <;> simp [hb, ha, stopLive, startInvoke]
        · simp [hb]
    | panelClose =>
        left
        by_cases ha : s.isLiveActive <;> simp [stepEv, ha, stopLive]
    | connectOk => right; rfl
    | connectErr => left; rfl
    | message t => left; rfl
    | srvClose => left; rfl
    | srvError => left; rfl
  · decide

/-- C2 counterexample: a second `start()` while the first connect is still
pending (the controller is Connecting: `isLiveActive` is still false) is
not rejected — the toggle dispatches `startLiveSession` again, a second
connection is opened (`connects = 2`) and, once both opens fire, a second
capture pipeline exists (`pipelines = 2`). -/
theorem c2_second_start_not_rejected :
    (runEvents idle0 [Ev.toggle]).isLiveActive = false ∧
    (runEvents idle0 [Ev.toggle]).pendingConnects = 1 ∧
    (runEvents idle0 [Ev.toggle, Ev.toggle]).connects = 2 ∧
    (runEvents idle0 [Ev.toggle, Ev.toggle]).pendingConnects = 2 ∧
    (runEvents idle0 [Ev.toggle, Ev.toggle, Ev.connectOk, Ev.connectOk]).pipelines = 2 := by
  decide

/-- C2 (amended): while a session is Active (`isLiveActive` true) the
user-facing toggle dispatches `stopLiveSession` rather than
`startLiveSession`, so no second connection or capture pipeline is created
through the toggle from Active; the unguarded re-entry exists only in the
Connecting window. -/
theorem c2_toggle_stops_when_active (s : AppState) (h : s.isLiveActive = true) :
    (stepEv s Ev.toggle).connects = s.connects ∧
    (stepEv s Ev.toggle).pipelines = s.pipelines ∧
    (stepEv s Ev.toggle).pendingConnects = s.pendingConnects := by
  simp only [stepEv]
  by_cases hb : micButtonShown s.step
  · simp [hb, h, stopLive]
  · simp [hb]

/-- C2 witness: the amended theorem applied to the Active state reached by
one successful start. -/
theorem c2_toggle_stops_when_active_witness :
    (stepEv (runEvents idle0 [Ev.toggle, Ev.connectOk]) Ev.toggle).connects =
      (runEvents idle0 [Ev.toggle, Ev.connectOk]).connects :=
  (c2_toggle_stops_when_active (runEvents idle0 [Ev.toggle, Ev.connectOk])
    (by decide)).1

/-- C3 counterexample: when the connect attempt fails, the application
state is component-wise identical to the idle state it started from (only
the ghost call counter differs): `isLiveActive` is false, there is no
session handle, and no `Failed`/`ConnectFailed` value exists anywhere in
the observable state, contradicting the claimed
`Idle → Connecting → Failed(ConnectFailed)` terminal state observable via
`status()`. The transcript does remain empty. -/
theorem c3_connect_failure_indistinguishable_from_idle :
    runEvents idle0 [Ev.toggle, Ev.connectErr] = { idle0 with connects := 1 } ∧
    (runEvents idle0 [Ev.toggle, Ev.connectErr]).isLiveActive = false ∧
    (runEvents idle0 [Ev.toggle, Ev.connectErr]).hasSession = false ∧
    (runEvents idle0 [Ev.toggle, Ev.connectErr]).liveTranscript = "" := by
  decide

/-- C3 (amended): on connect failure the `catch` block only logs — the
whole observable state is left exactly as before the start attempt (so the
transcript, in particular, is unchanged and remains empty if it was
empty); no failed state is recorded. -/
theorem c3_connect_failure_silent (s : AppState)
    (h1 : micButtonShown s.step = true) (h2 : s.isLiveActive = false) :
    runEvents s [Ev.toggle, Ev.connectErr] = { s with connects := s.connects + 1 } ∧
    (runEvents s [Ev.toggle, Ev.connectErr]).liveTranscript = s.liveTranscript := by
  have h3 : stepEv s Ev.toggle = startInvoke s := by
    simp [stepEv, h1, h2]
  have hmain : runEvents s [Ev.toggle, Ev.connectErr] =
      { s with connects := s.connects + 1 } := by
    show stepEv (stepEv s Ev.toggle) Ev.connectErr = _
    rw [h3]
    simp [stepEv, startInvoke]
  exact ⟨hmain, by rw [hmain]⟩

/-- C3 witness: the amended theorem applied to the initial dashboard
state. -/
theorem c3_connect_failure_silent_witness :
    runEvents idle0 [Ev.toggle, Ev.connectErr] =
      { idle0 with connects := idle0.connects + 1 } :=
  (c3_connect_failure_silent idle0 (by decide) rfl).1

/-- C4 counterexample: after a successful open and the three inbound text
deltas "Hi", " there", "!", the transcript is a single string that begins
with the connection banner; read as newline-separated entries it has four
entries, the banner first, and is not the claimed three-entry snapshot
["Hi", " there", "!"]. -/
theorem c4_transcript_has_banner_not_three_entries :
    (runEvents idle0 [Ev.toggle, Ev.connectOk, Ev.message (some "Hi"),
        Ev.message (some " there"), Ev.message (some "!")]).liveTranscript =
      "Connected! Start speaking...\nHi\n there\n!" ∧
    splitNl (runEvents idle0 [Ev.toggle, Ev.connectOk, Ev.message (some "Hi"),
        Ev.message (some " there"), Ev.message (some "!")]).liveTranscript ≠
      ["Hi", " there", "!"] ∧
    splitNl (runEvents idle0 [Ev.toggle, Ev.connectOk, Ev.message (some "Hi"),
        Ev.message (some " there"), Ev.message (some "!")]).liveTranscript =
      ["Connected! Start speaking...", "Hi", " there", "!"] := by
  decide

/-- C4 (amended): after K inbound text deltas the transcript is the banner
followed by each delta in arrival order, each preceded by a newline — no
delta is dropped, reordered or coalesced — and splitting the transcript at
newlines yields exactly 1 + K entries: the banner, then the K deltas in
order (provided the deltas themselves contain no newline). This holds for
the transcript cell of the application state after any successful open
followed by the K message events. -/
theorem c4_transcript_banner_then_deltas_in_order (ds : List String)
    (h : ∀ d ∈ ds, '\n' ∉ d.data) :
    sessionTranscript ds = connectedBanner ++ deltasText ds ∧
    splitNl (sessionTranscript ds) = connectedBanner :: ds ∧
    (splitNl (sessionTranscript ds)).length = ds.length + 1 ∧
    ∀ s : AppState,
      (runEvents (stepEv s Ev.connectOk)
          (ds.map (fun d => Ev.message (some d)))).liveTranscript =
        sessionTranscript ds := by
  have e1 : sessionTranscript ds = connectedBanner ++ deltasText ds := by
    unfold sessionTranscript
    rw [transcriptFold_eq]
    congr 1
    simp
  refine ⟨e1, ?_, ?_, ?_⟩
  · rw [e1]
    exact splitNl_banner_deltas ds h
  · rw [e1, splitNl_banner_deltas ds h]
    simp
  · intro s
    have hmap : ds.map (fun d => Ev.message (some d)) =
        (ds.map some).map Ev.message := by
      simp [List.map_map]
    rw [hmap, runEvents_messages]
    rfl

/-- C4 witness: the amended theorem applied to the scenario deltas. -/
theorem c4_transcript_banner_then_deltas_witness :
    splitNl (sessionTranscript ["Hi", " there", "!"]) =
      connectedBanner :: ["Hi", " there", "!"] :=
  (c4_transcript_banner_then_deltas_in_order ["Hi", " there", "!"]
    (by decide)).2.1

/-- C5: the PCM conversion is deterministic and, thanks to the clamp to
[-1, 1] applied before scaling by 32767, every output lies in the signed
16-bit range; inputs at or beyond the ±1.0 boundary saturate at ±32767
instead of overflowing. -/
theorem c5_pcm_deterministic_and_in_range :
    (∀ x : ℚ, -32768 ≤ pcmOfSample x ∧ pcmOfSample x ≤ 32767) ∧
    (∀ x y : ℚ, x = y → pcmOfSample x = pcmOfSample y) ∧
    (∀ x : ℚ, 1 ≤ x → pcmOfSample x = 32767) ∧
    (∀ x : ℚ, x ≤ -1 → pcmOfSample x = -32767) :=
  ⟨pcmOfSample_bounds,
   fun _ _ h => by rw [h],
   fun _ h => pcmOfSample_high h,
   fun _ h => pcmOfSample_low h⟩

/-- C5 witness: the theorem applied at the beyond-boundary samples 2 and
-2. -/
theorem c5_pcm_witness :
    pcmOfSample 2 = 32767 ∧ pcmOfSample (-2) = -32767 ∧
      -32768 ≤ pcmOfSample 2 ∧ pcmOfSample 2 = pcmOfSample 2 :=
  ⟨c5_pcm_deterministic_and_in_range.2.2.1 2 (by norm_num),
   c5_pcm_deterministic_and_in_range.2.2.2 (-2) (by norm_num),
   (c5_pcm_deterministic_and_in_range.1 2).1,
   c5_pcm_deterministic_and_in_range.2.1 2 2 rfl⟩

/-- C6: a run of N capture ticks produces exactly N sends, one per tick,
in capture order: the log of `sendRealtimeInput` calls is exactly the
in-order image of the tick blocks under the per-tick encoder, so the frame
at position i is the encoding of tick i and no frame is sent out of
capture order. -/
theorem c6_n_ticks_n_sends_in_order (ticks : List (List ℚ)) :
    runTicks [] ticks = ticks.map processAudioTick ∧
    (runTicks [] ticks).length = ticks.length := by
  have h := runTicks_eq [] ticks
  rw [List.nil_append] at h
  exact ⟨h, by rw [h, List.length_map]⟩

/-- C7: `stopLiveSession` is total (never throws), idempotent, and a
complete no-op on the idle/terminal state — but it does not release the
input device: the microphone-open flag is always left exactly as it was,
and in particular remains `true` when stop is called on a live session,
contradicting the release-before-return part of the claim. -/
theorem c7_stop_idempotent_but_device_not_released :
    (∀ s : AppState, stopLive (stopLive s) = stopLive s) ∧
    (∀ s : AppState, (stopLive s).isLiveActive = false) ∧
    (∀ s : AppState, (stopLive s).micOpen = s.micOpen) ∧
    stopLive idle0 = idle0 ∧
    (stopLive (runEvents idle0 [Ev.toggle, Ev.connectOk])).micOpen = true := by
  refine ⟨fun s => rfl, fun s => rfl, fun s => rfl, by decide, by decide⟩

/-- C8 counterexample: `stopLiveSession` is also invoked from the
live-assistant panel's close button, which is not the header toggle: from
an Active state the `panelClose` event performs exactly the stop
transition. -/
theorem c8_stop_also_invoked_from_panel_close :
    (runEvents idle0 [Ev.toggle, Ev.connectOk]).isLiveActive = true ∧
    (stepEv (runEvents idle0 [Ev.toggle, Ev.connectOk]) Ev.panelClose).isLiveActive
      = false ∧
    stepEv (runEvents idle0 [Ev.toggle, Ev.connectOk]) Ev.panelClose =
      stopLive (runEvents idle0 [Ev.toggle, Ev.connectOk]) := by
  decide

/-- C8 (amended): in every state whose wizard step is `welcome` or
`generating` no event can invoke `startLiveSession` (the toggle, its only
call site, is not rendered there), and no event other than the toggle ever
invokes `startLiveSession`; `stopLiveSession`, however, is reachable both
from the toggle and from the live-panel close button. -/
theorem c8_start_gated_by_step (s : AppState) (e : Ev) :
    ((s.step = Step.welcome ∨ s.step = Step.generating) →
      (stepEv s e).connects = s.connects) ∧
    (e ≠ Ev.toggle → (stepEv s e).connects = s.connects) := by
  have hnon : ∀ e2 : Ev, e2 ≠ Ev.toggle → (stepEv s e2).connects = s.connects := by
    intro e2 hne
    cases e2 with
    | toggle => exact absurd rfl hne
    | panelClose => by_cases ha : s.isLiveActive <;> simp [stepEv, ha, stopLive]
    | connectOk => rfl
    | connectErr => rfl
    | message t => rfl
    | srvClose => rfl
    | srvError => rfl
  constructor
  · intro h
    by_cases he : e = Ev.toggle
    · subst he
      have hb : micButtonShown s.step = false := by
        rcases h with h | h <;> rw [h] <;> decide
      simp [stepEv, hb]
    · exact hnon e he
  · exact hnon e

/-- C8 witness: the gate applied on the welcome step to the toggle, and
the only-via-toggle property applied to the panel-close event. -/
theorem c8_start_gated_witness :
    (stepEv { idle0 with step := Step.welcome } Ev.toggle).connects =
      { idle0 with step := Step.welcome }.connects ∧
    (stepEv idle0 Ev.panelClose).connects = idle0.connects :=
  ⟨(c8_start_gated_by_step { idle0 with step := Step.welcome } Ev.toggle).1
      (Or.inl rfl),
   (c8_start_gated_by_step idle0 Ev.panelClose).2 (fun h => Ev.noConfusion h)⟩

/-- C9: the roadmap-generation exchange is single-shot (exactly one
request per invocation), its declared response schema requires the three
roadmap milestones day30/day60/day90, and on failure a single terminal
error path is taken that stores no partial result (the previous results
are untouched and the wizard returns to the interests step); on success
the full parsed record list is stored atomically. -/
theorem c9_generation_single_shot_schema_validated (s : AppState)
    (err : String) (data : List CareerOption) :
    (handleGenerate s (Except.error err)).results = s.results ∧
    (handleGenerate s (Except.error err)).step = Step.interests ∧
    (handleGenerate s (Except.error err)).isGenerating = false ∧
    (handleGenerate s (Except.error err)).genRequests = s.genRequests + 1 ∧
    (handleGenerate s (Except.ok data)).results = data ∧
    (handleGenerate s (Except.ok data)).step = Step.results ∧
    (handleGenerate s (Except.ok data)).isGenerating = false ∧
    (handleGenerate s (Except.ok data)).genRequests = s.genRequests + 1 ∧
    roadmapRequiredFields = ["day30", "day60", "day90"] :=
  ⟨rfl, rfl, rfl, rfl, rfl, rfl, rfl, rfl, rfl⟩

/-- C10: the moment the connection opens the transcript is overwritten
with the fixed banner (whatever a previous session left there), every
inbound text delta is appended preceded by a newline, messages without
text leave the transcript unchanged, and the transcript at session start
is the banner, hence never empty. -/
theorem c10_banner_overwrite_and_newline_appends (s : AppState) (tr t : String) :
    (stepEv s Ev.connectOk).liveTranscript = "Connected! Start speaking..." ∧
    handleMessage tr (some t) = tr ++ "\n" ++ t ∧
    handleMessage tr none = tr ∧
    (stepEv s Ev.connectOk).liveTranscript ≠ "" := by
  refine ⟨rfl, rfl, rfl, ?_⟩
  exact (by decide : connectedBanner ≠ "")
